import Mathlib

/-!
Verification of the authenticated request client of TalentSyncAI
(frontend `services/api.js` and `context/AuthContext.jsx`).

The client keeps an access/refresh token pair in two module-level
variables mirrored into `localStorage` (`ja_access` / `ja_refresh`),
attaches `Bearer <accessToken>` on outgoing requests when an access
token is present, and, on a 401 response for a not-yet-retried request
that has a refresh token available, posts to `/auth/refresh` with a
bare axios client, installs the returned pair, and resends the original
request once; on refresh failure it clears the tokens and invokes the
registered logout handler, then rejects the original error.

Everything below is a direct shallow embedding of that code; the event
loop is modelled by explicit interleavings of handler steps.
-/

namespace TalentSync

/-- The token state of `api.js`: the module variables `accessToken` and
`refreshToken` plus the two `localStorage` keys (durable storage);
`none` means the key is absent. -/
structure Store where
  accessToken : String
  refreshToken : String
  lsAccess : Option String
  lsRefresh : Option String
deriving DecidableEq, Repr

/-- `setTokens(access, refresh)`: overwrites both module variables and
both `localStorage` keys. -/
def setTokens (_st : Store) (access refresh : String) : Store :=
  { accessToken := access
    refreshToken := refresh
    lsAccess := some access
    lsRefresh := some refresh }

/-- `getTokens()`. -/
def getTokens (st : Store) : String × String :=
  (st.accessToken, st.refreshToken)

/-- `clearTokens()`: empties both module variables and removes both
`localStorage` keys. -/
def clearTokens (_st : Store) : Store :=
  { accessToken := ""
    refreshToken := ""
    lsAccess := none
    lsRefresh := none }

/-- `hasTokens()` is `!!accessToken`: truthiness of the access token. -/
def hasTokens (st : Store) : Bool :=
  st.accessToken != ""

/-- The store whose memory and durable halves are all empty; this is
what `clearTokens` produces from any state. -/
def clearedStore : Store :=
  { accessToken := "", refreshToken := "", lsAccess := none, lsRefresh := none }

/-- An axios request config: the `Authorization` header (if set) and the
`_retry` flag the response interceptor stamps on a config it retries. -/
structure Config where
  auth : Option String
  retried : Bool
deriving DecidableEq, Repr

/-- A config as a caller builds it: no Authorization header, `_retry`
unset. -/
def freshConfig : Config :=
  { auth := none, retried := false }

/-- The request interceptor: `if (accessToken) config.headers.Authorization
= Bearer accessToken`. Note it consults only the access half. -/
def requestInterceptor (st : Store) (c : Config) : Config :=
  if st.accessToken != "" then
    { c with auth := some ("Bearer " ++ st.accessToken) }
  else c

/-- A rejected axios error: `error.response?.status` (`none` models a
network error with no response) and `error.config`, the config the
request was sent with. -/
structure AxiosError where
  status : Option Nat
  config : Config
deriving DecidableEq, Repr

/-- A backend answer to one send of a request. -/
inductive Resp
  | ok (body : String)
  | err (status : Option Nat)
deriving DecidableEq, Repr

/-- Outcome of one `axios.post(API_BASE/auth/refresh, ...)` call. -/
inductive RefreshResult
  | ok (access refresh : String)
  | err (status : Option Nat)
deriving DecidableEq, Repr

/-- What the caller of `api(config)` eventually observes. `noResponse`
is a model artifact for scripts shorter than the execution they drive;
no theorem below relies on it. -/
inductive Outcome
  | ok (body : String)
  | rejected (e : AxiosError)
  | noResponse
deriving DecidableEq, Repr

/-- Counters of the externally visible effects of processing one
request: refresh POSTs issued, retries of the original request, logout
handler invocations, and `clearTokens` calls. -/
structure Trace where
  refreshCalls : Nat
  retries : Nat
  logoutCalls : Nat
  clears : Nat
deriving DecidableEq, Repr

def Trace.zero : Trace :=
  { refreshCalls := 0, retries := 0, logoutCalls := 0, clears := 0 }

/-- One request travelling through `api`: the request interceptor runs,
the backend answers with the next element of `resps`, and on an error
the response interceptor's rejection handler runs.  The handler refreshes
(consuming the next element of `refreshes`) exactly when
`status === 401 && !config._retry && refreshToken`; on refresh success it
installs the new pair, stamps the new bearer header, and resends the
original request through `api` (the recursive call); on refresh failure
it clears the tokens, invokes the logout handler when one is registered
(`lg`), and rejects the original error. -/
def apiSend (lg : Bool) :
    Store → Config → List Resp → List RefreshResult → Store × Outcome × Trace
  | st, _, [], _ => (st, Outcome.noResponse, Trace.zero)
  | st, _, Resp.ok body :: _, _ => (st, Outcome.ok body, Trace.zero)
  | st, c, Resp.err status :: rest, refreshes =>
    if status = some 401 ∧ (requestInterceptor st c).retried = false ∧
        st.refreshToken != "" then
      match refreshes with
      | [] => (st, Outcome.noResponse, { Trace.zero with refreshCalls := 1 })
      | RefreshResult.ok a r :: rtail =>
        let res := apiSend lg (setTokens st a r)
          { retried := true, auth := some ("Bearer " ++ a) } rest rtail
        (res.1, res.2.1,
          { refreshCalls := res.2.2.refreshCalls + 1
            retries := res.2.2.retries + 1
            logoutCalls := res.2.2.logoutCalls
            clears := res.2.2.clears })
      | RefreshResult.err _ :: _ =>
        (clearTokens st, Outcome.rejected ⟨status, requestInterceptor st c⟩,
          { refreshCalls := 1, retries := 0
            logoutCalls := if lg then 1 else 0, clears := 1 })
    else
      (st, Outcome.rejected ⟨status, requestInterceptor st c⟩, Trace.zero)

/-! ### The TokenStore operation alphabet (claim C5)

Only `setTokens` and `clearTokens` write the store; a history of those
calls is a list of operations. -/

/-- One write to the token store. -/
inductive Op
  | set (access refresh : String)
  | clear
deriving DecidableEq, Repr

def applyOp (st : Store) : Op → Store
  | Op.set a r => setTokens st a r
  | Op.clear => clearTokens st

def applyOps (st : Store) (ops : List Op) : Store :=
  ops.foldl applyOp st

/-- Pair atomicity: the store is either fully cleared, or both memory
halves and both durable keys carry a single `setTokens a r` write with
both components non-empty. -/
def pairAtomic (st : Store) : Prop :=
  st = clearedStore ∨
    ∃ a r, a ≠ "" ∧ r ≠ "" ∧ st = setTokens clearedStore a r

/-! ### The event-loop model of concurrent 401 handling (claims C1, C2)

Several requests may each receive a 401 before any refresh settles.  The
rejection handler of the response interceptor runs synchronously up to
its `await axios.post(.../auth/refresh)`; the remainder runs when that
request's own refresh call settles.  Each request is a little state
machine and the event loop is an explicit interleaving of events. -/

/-- Where one 401-rejected request stands inside the handler. -/
inductive Phase
  | got401 (e : AxiosError)
  | awaitingRefresh (e : AxiosError)
  | retrying (auth : String)
  | done (out : Outcome)
deriving DecidableEq, Repr

/-- The shared state: token store, whether a logout handler is
registered, effect counters, and the per-request phases. -/
structure Sys where
  store : Store
  logoutRegistered : Bool
  logoutCalls : Nat
  refreshCalls : Nat
  clearCalls : Nat
  phases : List Phase
deriving DecidableEq, Repr

/-- Scheduler events: request `i` runs the synchronous prefix of its
handler; request `i`'s own refresh call settles. -/
inductive Ev
  | start (i : Nat)
  | refreshOk (i : Nat) (access refresh : String)
  | refreshErr (i : Nat) (status : Option Nat)
deriving DecidableEq, Repr

/-- Mark `original._retry = true` on the config of an error. -/
def markRetried (e : AxiosError) : AxiosError :=
  { e with config := { e.config with retried := true } }

def step (s : Sys) : Ev → Sys
  | Ev.start i =>
    match s.phases[i]? with
    | some (Phase.got401 e) =>
      if e.status = some 401 ∧ e.config.retried = false ∧
          s.store.refreshToken != "" then
        { s with
            refreshCalls := s.refreshCalls + 1
            phases := s.phases.set i (Phase.awaitingRefresh (markRetried e)) }
      else
        { s with phases := s.phases.set i (Phase.done (Outcome.rejected e)) }
    | _ => s
  | Ev.refreshOk i a r =>
    match s.phases[i]? with
    | some (Phase.awaitingRefresh _) =>
      { s with
          store := setTokens s.store a r
          phases := s.phases.set i (Phase.retrying ("Bearer " ++ a)) }
    | _ => s
  | Ev.refreshErr i _ =>
    match s.phases[i]? with
    | some (Phase.awaitingRefresh e) =>
      { s with
          store := clearTokens s.store
          clearCalls := s.clearCalls + 1
          logoutCalls := s.logoutCalls + (if s.logoutRegistered then 1 else 0)
          phases := s.phases.set i (Phase.done (Outcome.rejected e)) }
    | _ => s

def run (s : Sys) (evs : List Ev) : Sys :=
  evs.foldl step s

/-- `n` identical authenticated requests that have all just received a
401 (handler not yet run), with a logout handler registered. -/
def mkSys (st : Store) (n : Nat) (e : AxiosError) : Sys :=
  { store := st
    logoutRegistered := true
    logoutCalls := 0
    refreshCalls := 0
    clearCalls := 0
    phases := List.replicate n (Phase.got401 e) }

/-- The schedule `[start k, start (k+1), ..., start (k+m-1)]`. -/
def startsFrom (k : Nat) : Nat → List Ev
  | 0 => []
  | m + 1 => Ev.start k :: startsFrom (k + 1) m

/-- The schedule failing the refresh of requests `k, ..., k+m-1`. -/
def failsFrom (k : Nat) (status : Option Nat) : Nat → List Ev
  | 0 => []
  | m + 1 => Ev.refreshErr k status :: failsFrom (k + 1) status m

/-! ### AuthContext: logout and bootstrap (claims C8, C9) -/

/-- The AuthContext client state: the token store plus `user`. -/
structure AuthState where
  store : Store
  user : Option String
deriving DecidableEq, Repr

/-- `logout` from AuthContext: the backend call's outcome is swallowed
(`try ... catch {}`), then `clearTokens(); setUser(null)`. -/
def logoutClient (s : AuthState) : AuthState :=
  { store := clearTokens s.store, user := none }

/-- Outcome of `authAPI.me()` as observed by the bootstrap effect
(`.then` with a user, or `.catch`). -/
inductive MeResult
  | ok (u : String)
  | err
deriving DecidableEq, Repr

/-- Result of the AuthProvider mount effect. -/
structure BootState where
  store : Store
  user : Option String
  loading : Bool
  meCalled : Bool
deriving DecidableEq, Repr

/-- `if (at && rt)`: both query parameters present and truthy. -/
def oauthParamsPresent (atP rtP : Option String) : Bool :=
  match atP, rtP with
  | some a, some r => a != "" && r != ""
  | _, _ => false

/-- The AuthProvider mount effect: ingest OAuth redirect parameters if
both are present, then call `me()` exactly when `hasTokens()`; on `me`
failure clear the tokens; finally `setLoading(false)`. -/
def bootstrap (st : Store) (atP rtP : Option String) (meResp : MeResult) :
    BootState :=
  let st1 :=
    match atP, rtP with
    | some a, some r => if a != "" && r != "" then setTokens st a r else st
    | _, _ => st
  if hasTokens st1 then
    match meResp with
    | MeResult.ok u =>
      { store := st1, user := some u, loading := false, meCalled := true }
    | MeResult.err =>
      { store := clearTokens st1, user := none, loading := false, meCalled := true }
  else
    { store := st1, user := none, loading := false, meCalled := false }

/-! ### Which HTTP client each endpoint uses (claim C10)

`authAPI.signup`, `authAPI.login` and the refresh POST inside the
response interceptor go through bare `axios`, which has no interceptors;
`me`, `logout` and all data endpoints go through `api`. -/

inductive Client
  | api
  | bare
deriving DecidableEq, Repr

/-- The config a client actually puts on the wire: `api` runs the
request interceptor, bare `axios` sends the config untouched. -/
def sendConfig : Client → Store → Config → Config
  | Client.api, st, c => requestInterceptor st c
  | Client.bare, _, c => c

def refreshClient : Client := Client.bare
def loginClient : Client := Client.bare
def signupClient : Client := Client.bare
def meClient : Client := Client.api

/-- A `set` into the store carries a well-formed token pair: both halves
present (the backend returns both `access_token` and `refresh_token`). -/
def opWellFormed : Op → Prop
  | Op.set a r => a ≠ "" ∧ r ≠ ""
  | Op.clear => True

instance (op : Op) : Decidable (opWellFormed op) :=
  match op with
  | Op.set a r => inferInstanceAs (Decidable (a ≠ "" ∧ r ≠ ""))
  | Op.clear => inferInstanceAs (Decidable True)

/-! ## Concrete objects shared by witnesses and counterexamples -/

/-- A store holding the pair `(A1, R1)` in memory and durable storage. -/
def st0 : Store :=
  { accessToken := "A1", refreshToken := "R1"
    lsAccess := some "A1", lsRefresh := some "R1" }

/-- The config of a first send: no header yet, `_retry` unset. -/
def c0 : Config := { auth := none, retried := false }

/-- A config that has already been retried once. -/
def cRetried : Config := { auth := some "Bearer A1", retried := true }

/-- The 401 error of a first send that carried the `A1` bearer token. -/
def e401 : AxiosError :=
  { status := some 401, config := { auth := some "Bearer A1", retried := false } }

/-- Two concurrent 401-rejected requests that both run their handler
prefix before either refresh settles, then receive different rotated
pairs from the backend. -/
def schedTwoOk : List Ev :=
  [Ev.start 0, Ev.start 1, Ev.refreshOk 0 "A2" "R2", Ev.refreshOk 1 "A3" "R3"]

/-- Two concurrent 401-rejected requests whose refresh calls both fail. -/
def schedTwoErr : List Ev :=
  [Ev.start 0, Ev.start 1, Ev.refreshErr 0 (some 401), Ev.refreshErr 1 (some 401)]

/-- A store holding an access token but no refresh token, as arises when
`localStorage` carries `ja_access` but not `ja_refresh` at module load. -/
def mismatchedStore : Store :=
  { accessToken := "A1", refreshToken := "", lsAccess := some "A1", lsRefresh := none }

/-- A system with one request already awaiting its own refresh call. -/
def sysAwait : Sys :=
  { store := st0, logoutRegistered := true, logoutCalls := 0
    refreshCalls := 1, clearCalls := 0
    phases := [Phase.awaitingRefresh { status := some 401, config := { auth := none, retried := true } }] }

/-- The state right after `logout()` completed while one request's
refresh call was still in flight: the store has been cleared, but the
request is still awaiting its `axios.post(/auth/refresh)`. -/
def sysLoggedOut : Sys :=
  { store := clearedStore, logoutRegistered := true, logoutCalls := 0
    refreshCalls := 1, clearCalls := 1
    phases := [Phase.awaitingRefresh { status := some 401, config := { auth := none, retried := true } }] }

/-! ## Helper lemmas -/

theorem applyOps_append (st : Store) (l1 l2 : List Op) :
    applyOps st (l1 ++ l2) = applyOps (applyOps st l1) l2 :=
  List.foldl_append _ _ _ _

theorem requestInterceptor_retried (st : Store) (c : Config) :
    (requestInterceptor st c).retried = c.retried := by
  unfold requestInterceptor
  split <;> rfl

theorem apiSend_err_reject (lg : Bool) (st : Store) (c : Config)
    (status : Option Nat) (rest : List Resp) (refreshes : List RefreshResult)
    (h : ¬(status = some 401 ∧ (requestInterceptor st c).retried = false ∧
      st.refreshToken != "")) :
    apiSend lg st c (Resp.err status :: rest) refreshes =
      (st, Outcome.rejected ⟨status, requestInterceptor st c⟩, Trace.zero) := by
  simp only [apiSend]
  rw [if_neg h]

theorem apiSend_retried (lg : Bool) (st : Store) (c : Config)
    (resps : List Resp) (refreshes : List RefreshResult)
    (h : c.retried = true) :
    (apiSend lg st c resps refreshes).1 = st ∧
    (apiSend lg st c resps refreshes).2.2 = Trace.zero := by
  cases resps with
  | nil => exact ⟨rfl, rfl⟩
  | cons resp rest =>
    cases resp with
    | ok body => exact ⟨rfl, rfl⟩
    | err status =>
      rw [apiSend_err_reject]
      · exact ⟨rfl, rfl⟩
      · rintro ⟨-, h2, -⟩
        rw [requestInterceptor_retried, h] at h2
        exact absurd h2 (by decide)

theorem apiSend_trace_le_one (lg : Bool) (st : Store) (c : Config)
    (resps : List Resp) (refreshes : List RefreshResult) :
    (apiSend lg st c resps refreshes).2.2.refreshCalls ≤ 1 ∧
    (apiSend lg st c resps refreshes).2.2.retries ≤ 1 := by
  cases resps with
  | nil => exact ⟨Nat.zero_le 1, Nat.zero_le 1⟩
  | cons resp rest =>
    cases resp with
    | ok body => exact ⟨Nat.zero_le 1, Nat.zero_le 1⟩
    | err status =>
      by_cases hcond : status = some 401 ∧ (requestInterceptor st c).retried = false ∧
          st.refreshToken != ""
      · cases refreshes with
        | nil =>
          simp only [apiSend]
          rw [if_pos hcond]
          exact ⟨Nat.le_refl 1, Nat.zero_le 1⟩
        | cons rr rtail =>
          cases rr with
          | ok a r =>
            have hz := apiSend_retried lg (setTokens st a r)
              { retried := true, auth := some ("Bearer " ++ a) } rest rtail rfl
            simp only [apiSend]
            rw [if_pos hcond]
            simp only [hz.2, Trace.zero]
            exact ⟨Nat.le_refl 1, Nat.le_refl 1⟩
          | err s' =>
            simp only [apiSend]
            rw [if_pos hcond]
            exact ⟨Nat.le_refl 1, Nat.zero_le 1⟩
      · rw [apiSend_err_reject lg st c status rest refreshes hcond]
        exact ⟨Nat.zero_le 1, Nat.zero_le 1⟩

theorem apiSend_refresh_err_eq (lg : Bool) (st : Store) (c : Config)
    (rest : List Resp) (rs : Option Nat) (rtail : List RefreshResult)
    (hc : c.retried = false) (hr : st.refreshToken ≠ "") :
    apiSend lg st c (Resp.err (some 401) :: rest)
        (RefreshResult.err rs :: rtail) =
      (clearedStore,
        Outcome.rejected ⟨some 401, requestInterceptor st c⟩,
        { refreshCalls := 1, retries := 0
          logoutCalls := if lg then 1 else 0, clears := 1 }) := by
  have hret : (requestInterceptor st c).retried = false := by
    rw [requestInterceptor_retried, hc]
  simp only [apiSend]
  rw [if_pos ⟨trivial, hret, bne_iff_ne.mpr hr⟩]
  rfl

theorem pairAtomic_foldl : ∀ (ops : List Op) (st : Store),
    pairAtomic st → (∀ op ∈ ops, opWellFormed op) →
    pairAtomic (applyOps st ops)
  | [], _, hst, _ => hst
  | op :: rest, st, _, hops => by
    have hstep : pairAtomic (applyOp st op) := by
      cases op with
      | clear => exact Or.inl rfl
      | set a r =>
        have hwf := hops (Op.set a r) (List.mem_cons_self _ _)
        exact Or.inr ⟨a, r, hwf.1, hwf.2, rfl⟩
    exact pairAtomic_foldl rest (applyOp st op) hstep
      (fun o hm => hops o (List.mem_cons_of_mem _ hm))

theorem clearOnly_preserves_cleared : ∀ (ops : List Op),
    (∀ op ∈ ops, op = Op.clear) → applyOps clearedStore ops = clearedStore
  | [], _ => rfl
  | op :: rest, h => by
    cases op with
    | set a r => exact absurd (h _ (List.mem_cons_self _ _)) (by simp)
    | clear =>
      exact clearOnly_preserves_cleared rest
        (fun o hm => h o (List.mem_cons_of_mem _ hm))

theorem getElem?_append_len {α : Type} (A : List α) (p : α) (B : List α) :
    (A ++ p :: B)[A.length]? = some p := by
  induction A with
  | nil => simp
  | cons a A ih => simpa using ih

theorem set_append_len {α : Type} (A : List α) (p q : α) (B : List α) :
    (A ++ p :: B).set A.length q = A ++ q :: B := by
  induction A with
  | nil => rfl
  | cons a A ih =>
    show a :: (A ++ p :: B).set A.length q = a :: (A ++ q :: B)
    rw [ih]

theorem run_append (s : Sys) (l1 l2 : List Ev) :
    run s (l1 ++ l2) = run (run s l1) l2 :=
  List.foldl_append _ _ _ _

theorem step_refreshOk (s : Sys) (i : Nat) (a r : String) (e : AxiosError)
    (h : s.phases[i]? = some (Phase.awaitingRefresh e)) :
    step s (Ev.refreshOk i a r) =
      { s with
          store := setTokens s.store a r
          phases := s.phases.set i (Phase.retrying ("Bearer " ++ a)) } := by
  simp only [step, h]

/-- Running the synchronous handler prefixes of `m` consecutive 401-rejected
requests: each one checks the (still unchanged) store, finds a refresh token,
marks itself retried, and fires its own refresh POST. -/
theorem run_startsFrom : ∀ (m k : Nat) (s : Sys) (A : List Phase) (e : AxiosError),
    s.phases = A ++ List.replicate m (Phase.got401 e) →
    A.length = k →
    e.status = some 401 → e.config.retried = false →
    s.store.refreshToken ≠ "" →
    run s (startsFrom k m) =
      { s with
          refreshCalls := s.refreshCalls + m
          phases := A ++ List.replicate m (Phase.awaitingRefresh (markRetried e)) }
  | 0, k, s, A, e => by
    intro hp _ _ _ _
    cases s
    simp only [run, startsFrom, List.foldl_nil, List.replicate] at *
    simp [hp]
  | m + 1, k, s, A, e => by
    intro hp hk hs hcr hr
    have hget : s.phases[k]? = some (Phase.got401 e) := by
      rw [hp, ← hk, List.replicate_succ]
      exact getElem?_append_len A _ _
    have hset : s.phases.set k (Phase.awaitingRefresh (markRetried e)) =
        A ++ Phase.awaitingRefresh (markRetried e) ::
          List.replicate m (Phase.got401 e) := by
      rw [hp, ← hk, List.replicate_succ]
      exact set_append_len A _ _ _
    have hstep : step s (Ev.start k) =
        { s with
            refreshCalls := s.refreshCalls + 1
            phases := A ++ Phase.awaitingRefresh (markRetried e) ::
              List.replicate m (Phase.got401 e) } := by
      simp only [step, hget]
      rw [if_pos ⟨hs, hcr, bne_iff_ne.mpr hr⟩, hset]
    show run (step s (Ev.start k)) (startsFrom (k + 1) m) = _
    rw [hstep]
    rw [run_startsFrom m (k + 1)
      { s with
          refreshCalls := s.refreshCalls + 1
          phases := A ++ Phase.awaitingRefresh (markRetried e) ::
            List.replicate m (Phase.got401 e) }
      (A ++ [Phase.awaitingRefresh (markRetried e)]) e
      (by simp) (by simp [← hk]) hs hcr hr]
    simp [Nat.add_assoc, Nat.add_comm, List.replicate_succ]
    omega

/-- Settling the refresh calls of `m` consecutive awaiting requests with a
failure: each one clears the store and invokes the logout handler. -/
theorem run_failsFrom : ∀ (m k : Nat) (s : Sys) (A : List Phase)
    (e : AxiosError) (status : Option Nat),
    s.phases = A ++ List.replicate m (Phase.awaitingRefresh e) →
    A.length = k →
    s.logoutRegistered = true →
    run s (failsFrom k status m) =
      { s with
          store := if m = 0 then s.store else clearedStore
          clearCalls := s.clearCalls + m
          logoutCalls := s.logoutCalls + m
          phases := A ++ List.replicate m (Phase.done (Outcome.rejected e)) }
  | 0, k, s, A, e, status => by
    intro hp _ _
    cases s
    simp only [run, failsFrom, List.foldl_nil, List.replicate] at *
    simp [hp]
  | m + 1, k, s, A, e, status => by
    intro hp hk hlg
    have hget : s.phases[k]? = some (Phase.awaitingRefresh e) := by
      rw [hp, ← hk, List.replicate_succ]
      exact getElem?_append_len A _ _
    have hset : s.phases.set k (Phase.done (Outcome.rejected e)) =
        A ++ Phase.done (Outcome.rejected e) ::
          List.replicate m (Phase.awaitingRefresh e) := by
      rw [hp, ← hk, List.replicate_succ]
      exact set_append_len A _ _ _
    have hstep : step s (Ev.refreshErr k status) =
        { s with
            store := clearedStore
            clearCalls := s.clearCalls + 1
            logoutCalls := s.logoutCalls + 1
            phases := A ++ Phase.done (Outcome.rejected e) ::
              List.replicate m (Phase.awaitingRefresh e) } := by
      simp only [step, hget]
      rw [hset, hlg]
      rfl
    show run (step s (Ev.refreshErr k status)) (failsFrom (k + 1) status m) = _
    rw [hstep]
    rw [run_failsFrom m (k + 1)
      { s with
          store := clearedStore
          clearCalls := s.clearCalls + 1
          logoutCalls := s.logoutCalls + 1
          phases := A ++ Phase.done (Outcome.rejected e) ::
            List.replicate m (Phase.awaitingRefresh e) }
      (A ++ [Phase.done (Outcome.rejected e)]) e status
      (by simp) (by simp [← hk]) hlg]
    simp [Nat.add_assoc, Nat.add_comm, List.replicate_succ, Nat.succ_ne_zero]
    omega

/-! ## Claim theorems -/

/-- C1, counterexample: with two concurrent requests that each receive a
401 before any refresh completes, two refresh calls reach the backend,
not one, and the two retries carry different access tokens when the
backend rotates per call. -/
theorem single_flight_refuted :
    (run (mkSys st0 2 e401) schedTwoOk).refreshCalls = 2 ∧
    (run (mkSys st0 2 e401) schedTwoOk).refreshCalls ≠ 1 ∧
    (run (mkSys st0 2 e401) schedTwoOk).phases =
      [Phase.retrying "Bearer A2", Phase.retrying "Bearer A3"] ∧
    Phase.retrying "Bearer A2" ≠ Phase.retrying "Bearer A3" := by
  decide

/-- C1, amended: each of the N concurrent 401-rejected requests issues
its own refresh call (N backend refresh calls, no in-flight sharing),
and when a request's own refresh resolves with a pair `(a, r)` its retry
is resent bearing `a` — retries of different requests need not share an
identical token. -/
theorem concurrent_401_refresh_per_request :
    (∀ (n : Nat) (st : Store) (c : Config),
      c.retried = false → st.refreshToken ≠ "" →
      run (mkSys st n ⟨some 401, c⟩) (startsFrom 0 n) =
        { store := st, logoutRegistered := true, logoutCalls := 0
          refreshCalls := n, clearCalls := 0
          phases := List.replicate n
            (Phase.awaitingRefresh ⟨some 401, { c with retried := true }⟩) }) ∧
    (∀ (s : Sys) (i : Nat) (a r : String) (e : AxiosError),
      s.phases[i]? = some (Phase.awaitingRefresh e) →
      step s (Ev.refreshOk i a r) =
        { s with
            store := setTokens s.store a r
            phases := s.phases.set i (Phase.retrying ("Bearer " ++ a)) }) := by
  constructor
  · intro n st c hc hr
    have h1 := run_startsFrom n 0 (mkSys st n ⟨some 401, c⟩) []
      ⟨some 401, c⟩ rfl rfl rfl hc hr
    rw [h1]
    simp [mkSys, markRetried]
  · intro s i a r e h
    exact step_refreshOk s i a r e h

theorem concurrent_401_refresh_per_request_witness :
    (run (mkSys st0 3 ⟨some 401, c0⟩) (startsFrom 0 3) =
      { store := st0, logoutRegistered := true, logoutCalls := 0
        refreshCalls := 3, clearCalls := 0
        phases := List.replicate 3
          (Phase.awaitingRefresh ⟨some 401, { c0 with retried := true }⟩) }) ∧
    (step sysAwait (Ev.refreshOk 0 "A2" "R2") =
      { sysAwait with
          store := setTokens sysAwait.store "A2" "R2"
          phases := sysAwait.phases.set 0 (Phase.retrying ("Bearer " ++ "A2")) }) :=
  ⟨concurrent_401_refresh_per_request.1 3 st0 c0 rfl (by decide),
   concurrent_401_refresh_per_request.2 sysAwait 0 "A2" "R2"
     ⟨some 401, { auth := none, retried := true }⟩ (by decide)⟩

/-- C2, counterexample: two concurrent requests awaiting failing
refreshes produce two logout-handler invocations and two store clears,
not exactly one of each. -/
theorem logout_exactly_once_refuted :
    (run (mkSys st0 2 e401) schedTwoErr).logoutCalls = 2 ∧
    (run (mkSys st0 2 e401) schedTwoErr).logoutCalls ≠ 1 ∧
    (run (mkSys st0 2 e401) schedTwoErr).clearCalls = 2 ∧
    (run (mkSys st0 2 e401) schedTwoErr).store = clearedStore := by
  decide

/-- C2, amended: when the refresh calls of all N concurrently-awaiting
requests fail, `clearTokens` runs and the logout hook fires once per
failing waiter (N times each, not exactly once); the store nevertheless
ends empty because `clearTokens` is idempotent, and every waiter is
released with its original failure. -/
theorem refresh_failure_logout_per_waiter (n : Nat) (st : Store) (c : Config)
    (status : Option Nat) (hc : c.retried = false) (hr : st.refreshToken ≠ "") :
    run (mkSys st n ⟨some 401, c⟩) (startsFrom 0 n ++ failsFrom 0 status n) =
      { store := if n = 0 then st else clearedStore
        logoutRegistered := true
        logoutCalls := n
        refreshCalls := n
        clearCalls := n
        phases := List.replicate n
          (Phase.done (Outcome.rejected ⟨some 401, { c with retried := true }⟩)) } := by
  have h1 := run_startsFrom n 0 (mkSys st n ⟨some 401, c⟩) []
    ⟨some 401, c⟩ rfl rfl rfl hc hr
  have h1' : run (mkSys st n ⟨some 401, c⟩) (startsFrom 0 n) =
      { store := st, logoutRegistered := true, logoutCalls := 0
        refreshCalls := n, clearCalls := 0
        phases := List.replicate n
          (Phase.awaitingRefresh ⟨some 401, { c with retried := true }⟩) } := by
    rw [h1]
    simp [mkSys, markRetried]
  rw [run_append, h1']
  have h2 := run_failsFrom n 0
    { store := st, logoutRegistered := true, logoutCalls := 0
      refreshCalls := n, clearCalls := 0
      phases := List.replicate n
        (Phase.awaitingRefresh ⟨some 401, { c with retried := true }⟩) }
    [] ⟨some 401, { c with retried := true }⟩ status rfl rfl rfl
  rw [h2]
  simp

theorem refresh_failure_logout_per_waiter_witness :
    run (mkSys st0 2 ⟨some 401, c0⟩) (startsFrom 0 2 ++ failsFrom 0 (some 401) 2) =
      { store := if 2 = 0 then st0 else clearedStore
        logoutRegistered := true
        logoutCalls := 2
        refreshCalls := 2
        clearCalls := 2
        phases := List.replicate 2
          (Phase.done (Outcome.rejected ⟨some 401, { c0 with retried := true }⟩)) } :=
  refresh_failure_logout_per_waiter 2 st0 c0 (some 401) rfl (by decide)

/-- C3: for any single request, at most one refresh attempt and at most
one retry are ever made, and a request whose `_retry` flag is already
set rejects a further 401 terminally with no refresh, no retry, no store
mutation and no logout. -/
theorem single_request_one_refresh_one_retry :
    (∀ lg st c resps refreshes,
      (apiSend lg st c resps refreshes).2.2.refreshCalls ≤ 1 ∧
      (apiSend lg st c resps refreshes).2.2.retries ≤ 1) ∧
    (∀ lg st c rest refreshes, c.retried = true →
      apiSend lg st c (Resp.err (some 401) :: rest) refreshes =
        (st, Outcome.rejected ⟨some 401, requestInterceptor st c⟩, Trace.zero)) := by
  refine ⟨fun lg st c resps refreshes => apiSend_trace_le_one lg st c resps refreshes, ?_⟩
  intro lg st c rest refreshes h
  apply apiSend_err_reject
  rintro ⟨-, h2, -⟩
  rw [requestInterceptor_retried, h] at h2
  exact absurd h2 (by decide)

theorem single_request_one_refresh_one_retry_witness :
    ((apiSend true st0 c0 [Resp.err (some 401), Resp.err (some 401)]
        [RefreshResult.ok "A2" "R2"]).2.2.refreshCalls ≤ 1 ∧
      (apiSend true st0 c0 [Resp.err (some 401), Resp.err (some 401)]
        [RefreshResult.ok "A2" "R2"]).2.2.retries ≤ 1) ∧
    apiSend true st0 cRetried [Resp.err (some 401)] [] =
      (st0, Outcome.rejected ⟨some 401, requestInterceptor st0 cRetried⟩,
        Trace.zero) :=
  ⟨single_request_one_refresh_one_retry.1 true st0 c0
      [Resp.err (some 401), Resp.err (some 401)] [RefreshResult.ok "A2" "R2"],
   single_request_one_refresh_one_retry.2 true st0 cRetried [] [] rfl⟩

/-- C4: when a request's 401 triggers a refresh and the refresh fails,
the token pair is cleared (memory and durable storage), the registered
logout hook is invoked once, and the value rejected to the caller is the
original request's 401 error — the same for every refresh-error status,
hence never the refresh call's own error. -/
theorem refresh_failure_effects (st : Store) (c : Config) (rest : List Resp)
    (rs : Option Nat) (rtail : List RefreshResult)
    (hc : c.retried = false) (hr : st.refreshToken ≠ "") :
    apiSend true st c (Resp.err (some 401) :: rest)
        (RefreshResult.err rs :: rtail) =
      (clearedStore,
        Outcome.rejected ⟨some 401, requestInterceptor st c⟩,
        { refreshCalls := 1, retries := 0, logoutCalls := 1, clears := 1 }) := by
  rw [apiSend_refresh_err_eq true st c rest rs rtail hc hr]
  rfl

theorem refresh_failure_effects_witness :
    apiSend true st0 c0 [Resp.err (some 401)] [RefreshResult.err (some 500)] =
      (clearedStore,
        Outcome.rejected ⟨some 401, requestInterceptor st0 c0⟩,
        { refreshCalls := 1, retries := 0, logoutCalls := 1, clears := 1 }) :=
  refresh_failure_effects st0 c0 [] (some 500) [] rfl (by decide)

/-- C5: across any sequence of well-formed `setTokens`/`clearTokens`
operations from a pair-atomic state, the store remains pair-atomic: both
memory halves and both durable keys are either all absent or all carry
the two halves written together by one single `setTokens` call. -/
theorem tokenStore_pair_atomicity (st : Store) (ops : List Op)
    (hst : pairAtomic st) (hops : ∀ op ∈ ops, opWellFormed op) :
    pairAtomic (applyOps st ops) :=
  pairAtomic_foldl ops st hst hops

theorem tokenStore_pair_atomicity_witness :
    pairAtomic (applyOps clearedStore
      [Op.set "A1" "R1", Op.clear, Op.set "A2" "R2"]) :=
  tokenStore_pair_atomicity clearedStore
    [Op.set "A1" "R1", Op.clear, Op.set "A2" "R2"] (Or.inl rfl) (by decide)

/-- C6: any error whose response status is not 401 (including a network
error with no response) is rejected to the caller unchanged: no refresh
call, no retry, no token-store mutation, no logout invocation. -/
theorem non_401_propagates_unchanged (lg : Bool) (st : Store) (c : Config)
    (status : Option Nat) (rest : List Resp) (refreshes : List RefreshResult)
    (h : status ≠ some 401) :
    apiSend lg st c (Resp.err status :: rest) refreshes =
      (st, Outcome.rejected ⟨status, requestInterceptor st c⟩, Trace.zero) :=
  apiSend_err_reject lg st c status rest refreshes (fun hcond => h hcond.1)

theorem non_401_propagates_unchanged_witness :
    apiSend true st0 c0 [Resp.err (some 500)] [RefreshResult.ok "A2" "R2"] =
      (st0, Outcome.rejected ⟨some 500, requestInterceptor st0 c0⟩,
        Trace.zero) :=
  non_401_propagates_unchanged true st0 c0 (some 500) []
    [RefreshResult.ok "A2" "R2"] (by decide)

/-- C7, counterexample: on a store holding an access token but no
refresh token, the pre-send hook still attaches the bearer header, so
attachment is not equivalent to a fully-present pair. -/
theorem bearer_requires_pair_refuted :
    (requestInterceptor mismatchedStore freshConfig).auth = some "Bearer A1" ∧
    mismatchedStore.refreshToken = "" ∧
    ¬((requestInterceptor mismatchedStore freshConfig).auth.isSome ↔
      (mismatchedStore.accessToken ≠ "" ∧ mismatchedStore.refreshToken ≠ "")) := by
  decide

/-- C7, amended: the pre-send hook attaches `Bearer <accessToken>`
exactly when the stored access token is non-empty, and does not consult
the refresh half at all; otherwise the request goes out with no
Authorization header. -/
theorem bearer_attached_iff_access_nonempty (st : Store) (r' : String) :
    (requestInterceptor st freshConfig).auth =
      (if st.accessToken ≠ "" then some ("Bearer " ++ st.accessToken) else none) ∧
    requestInterceptor { st with refreshToken := r' } freshConfig =
      requestInterceptor st freshConfig := by
  constructor
  · rcases eq_or_ne st.accessToken "" with h | h
    · simp [requestInterceptor, freshConfig, h]
    · simp [requestInterceptor, freshConfig, h]
  · simp [requestInterceptor]

/-- C8, counterexample: a refresh that was in flight when `logout()` ran
resolves afterwards; its success handler calls `setTokens`
unconditionally (the stale result is not discarded), so the cleared
store is repopulated and the next request attaches `Bearer A2` although
no login occurred — there is no login event in the model at all. -/
theorem logout_until_login_refuted :
    hasTokens sysLoggedOut.store = false ∧
    (run sysLoggedOut [Ev.refreshOk 0 "A2" "R2"]).store =
      setTokens clearedStore "A2" "R2" ∧
    hasTokens (run sysLoggedOut [Ev.refreshOk 0 "A2" "R2"]).store = true ∧
    (requestInterceptor (run sysLoggedOut [Ev.refreshOk 0 "A2" "R2"]).store
      freshConfig).auth = some "Bearer A2" := by
  decide

/-- C8, amended: after `logout()` completes the store is empty in memory
and in durable storage, the user is reset, and requests attach no
Authorization header as long as only clears occur; the header returns
with the next `setTokens` — which a new login performs, but which a
stale refresh that was in flight at logout also performs on late
success — so "until a new login" does not hold in general. -/
theorem logout_clears_session (s : AuthState) (ops : List Op)
    (hops : ∀ op ∈ ops, op = Op.clear) :
    getTokens (logoutClient s).store = ("", "") ∧
    (logoutClient s).store.lsAccess = none ∧
    (logoutClient s).store.lsRefresh = none ∧
    (logoutClient s).user = none ∧
    hasTokens (logoutClient s).store = false ∧
    (requestInterceptor (applyOps (logoutClient s).store ops) freshConfig).auth
      = none ∧
    (∀ a r : String, a ≠ "" →
      (requestInterceptor (applyOps (logoutClient s).store (ops ++ [Op.set a r]))
        freshConfig).auth = some ("Bearer " ++ a)) := by
  have h1 : (logoutClient s).store = clearedStore := rfl
  refine ⟨rfl, rfl, rfl, rfl, rfl, ?_, ?_⟩
  · rw [h1, clearOnly_preserves_cleared ops hops]
    rfl
  · intro a r ha
    rw [applyOps_append, h1, clearOnly_preserves_cleared ops hops]
    simp [applyOps, applyOp, setTokens, requestInterceptor, freshConfig, ha]

theorem logout_clears_session_witness :
    getTokens (logoutClient ⟨st0, some "user"⟩).store = ("", "") ∧
    (logoutClient ⟨st0, some "user"⟩).store.lsAccess = none ∧
    (logoutClient ⟨st0, some "user"⟩).store.lsRefresh = none ∧
    (logoutClient ⟨st0, some "user"⟩).user = none ∧
    hasTokens (logoutClient ⟨st0, some "user"⟩).store = false ∧
    (requestInterceptor (applyOps (logoutClient ⟨st0, some "user"⟩).store
      [Op.clear]) freshConfig).auth = none ∧
    (requestInterceptor (applyOps (logoutClient ⟨st0, some "user"⟩).store
      ([Op.clear] ++ [Op.set "A2" "R2"])) freshConfig).auth =
      some ("Bearer " ++ "A2") :=
  have h := logout_clears_session ⟨st0, some "user"⟩ [Op.clear] (by decide)
  ⟨h.1, h.2.1, h.2.2.1, h.2.2.2.1, h.2.2.2.2.1, h.2.2.2.2.2.1,
    h.2.2.2.2.2.2 "A2" "R2" (by decide)⟩

/-- C9, counterexample: with `ja_access` persisted but no `ja_refresh` —
no persisted *pair* — and no OAuth redirect parameters, the mount effect
still calls `me()`, because `hasTokens()` tests only the access half;
the claim's "no network call" fails. -/
theorem bootstrap_no_network_refuted :
    mismatchedStore.refreshToken = "" ∧
    mismatchedStore.lsRefresh = none ∧
    oauthParamsPresent none none = false ∧
    (bootstrap mismatchedStore none none (MeResult.ok "u")).meCalled = true ∧
    (bootstrap mismatchedStore none none (MeResult.ok "u")).user = some "u" := by
  decide

/-- C9, amended: at bootstrap with no OAuth redirect parameters, the
session becomes Anonymous immediately with no network call exactly when
no persisted *access token* exists (`hasTokens()` false); presence is
tested on the access half alone, so a persisted access token without a
refresh token still triggers the `me()` call. -/
theorem bootstrap_anonymous_iff_no_access_token (st : Store)
    (atP rtP : Option String) (me : MeResult)
    (hoauth : oauthParamsPresent atP rtP = false) :
    (hasTokens st = false →
      bootstrap st atP rtP me =
        { store := st, user := none, loading := false, meCalled := false }) ∧
    (hasTokens st = true → (bootstrap st atP rtP me).meCalled = true) := by
  have hst1 : bootstrap st atP rtP me = bootstrap st none none me := by
    cases atP with
    | none => cases rtP <;> rfl
    | some a =>
      cases rtP with
      | none => rfl
      | some r =>
        have hq : (a != "" && r != "") = false := by
          simpa [oauthParamsPresent, Bool.and_eq_false_iff] using hoauth
        simp [bootstrap, hq]
  rw [hst1]
  constructor
  · intro hpair
    simp [bootstrap, hpair]
  · intro hpair
    cases me <;> simp [bootstrap, hpair]

theorem bootstrap_anonymous_iff_no_access_token_witness :
    bootstrap clearedStore none (some "R3") (MeResult.ok "u") =
      { store := clearedStore, user := none, loading := false
        meCalled := false } ∧
    (bootstrap mismatchedStore none none (MeResult.ok "u")).meCalled = true :=
  ⟨(bootstrap_anonymous_iff_no_access_token clearedStore none (some "R3")
      (MeResult.ok "u") rfl).1 rfl,
   (bootstrap_anonymous_iff_no_access_token mismatchedStore none none
      (MeResult.ok "u") rfl).2 (by decide)⟩

/-- C10: the refresh POST (like login and signup) goes through the bare
client, which applies no interceptor, so it never carries an
Authorization header; a 401 from the refresh endpoint lands in the
failure branch (clear, logout, reject the original error) rather than
re-entering the response interceptor, and for every script the number of
refresh calls one request can cause is bounded by one. -/
theorem refresh_bare_client_bounded :
    (∀ st c, sendConfig refreshClient st c = c ∧
      sendConfig loginClient st c = c ∧ sendConfig signupClient st c = c) ∧
    (∀ st, (sendConfig refreshClient st freshConfig).auth = none) ∧
    (∀ lg st c rest rs rtail, c.retried = false → st.refreshToken ≠ "" →
      apiSend lg st c (Resp.err (some 401) :: rest)
          (RefreshResult.err rs :: rtail) =
        (clearedStore, Outcome.rejected ⟨some 401, requestInterceptor st c⟩,
          { refreshCalls := 1, retries := 0
            logoutCalls := if lg then 1 else 0, clears := 1 })) ∧
    (∀ lg st c resps refreshes,
      (apiSend lg st c resps refreshes).2.2.refreshCalls ≤ 1) := by
  refine ⟨fun st c => ⟨rfl, rfl, rfl⟩, fun st => rfl, ?_, ?_⟩
  · intro lg st c rest rs rtail hc hr
    exact apiSend_refresh_err_eq lg st c rest rs rtail hc hr
  · intro lg st c resps refreshes
    exact (apiSend_trace_le_one lg st c resps refreshes).1

theorem refresh_bare_client_bounded_witness :
    (sendConfig refreshClient st0 c0 = c0 ∧
      sendConfig loginClient st0 c0 = c0 ∧ sendConfig signupClient st0 c0 = c0) ∧
    (sendConfig refreshClient st0 freshConfig).auth = none ∧
    apiSend false st0 c0 [Resp.err (some 401)] [RefreshResult.err (some 401)] =
      (clearedStore, Outcome.rejected ⟨some 401, requestInterceptor st0 c0⟩,
        { refreshCalls := 1, retries := 0
          logoutCalls := if false then 1 else 0, clears := 1 }) ∧
    (apiSend false st0 c0 [Resp.err (some 401)]
      [RefreshResult.err (some 401)]).2.2.refreshCalls ≤ 1 :=
  ⟨refresh_bare_client_bounded.1 st0 c0,
   refresh_bare_client_bounded.2.1 st0,
   refresh_bare_client_bounded.2.2.1 false st0 c0 [] (some 401) [] rfl (by decide),
   refresh_bare_client_bounded.2.2.2 false st0 c0 [Resp.err (some 401)]
     [RefreshResult.err (some 401)]⟩

end TalentSync
